import Mathlib

/-!
Verification of the scraping/extraction core of the IMDb analysis webapp
(`src/webapp.py`) against its natural-language specification.

The Python source is shallowly embedded: pure helpers (`text_to_num`,
`is_valid_imdb_url`) become Lean functions; the network-facing parts
(`scrape_data`, `parse_data`, and the main script body) become functions over
an explicit environment that records the outcome of each HTTP fetch.  Raised
Python exceptions are modelled with `Option`/`Except` (a `none`/`.error`
result models an uncaught exception).  Python `float` values are modelled as
exact decimals (an integer mantissa with a power-of-ten scale); for every
concrete input appearing in the claims the IEEE-754 double result coincides
with the exact decimal one.  Each definition carries a comment naming the
source lines it embeds.
-/

/-- Kinds of Python exception that the embedded code can raise.  `valueError`
covers both `ValueError` from `int`/`float` conversion and the
`ValueError("Invalid IPv6 URL")` raised by `urllib.parse.urlsplit`. -/
inductive PyErr where
  | attributeError
  | valueError
  | indexError
  | typeError
  deriving DecidableEq, Repr

/-- An exact decimal `num / 10 ^ scale`, modelling a Python `float` produced
by parsing a decimal string. -/
structure Dec where
  num : ℤ
  scale : ℕ
  deriving DecidableEq, Repr

/-- Rational value of an exact decimal. -/
def Dec.val (d : Dec) : ℚ := (d.num : ℚ) / ((10 ^ d.scale : ℕ) : ℚ)

/-- A Python number as produced by the webapp: either an `int` or a `float`. -/
inductive PyNum where
  | int (n : ℤ)
  | float (d : Dec)
  deriving DecidableEq, Repr

/-- Numeric value of a `PyNum` (Python compares `int` and `float` by value). -/
def PyNum.val : PyNum → ℚ
  | .int n => (n : ℚ)
  | .float d => d.val

/-- Value of a list of ASCII decimal digits, most significant first. -/
def digitsVal (ds : List Char) : ℕ :=
  ds.foldl (fun a c => a * 10 + (c.toNat - '0'.toNat)) 0

/-- `true` iff `ds` is a nonempty list of ASCII decimal digits. -/
def allDigits (ds : List Char) : Bool :=
  decide (ds ≠ []) && ds.all Char.isDigit

/-- Python `str.strip()` / leading-trailing whitespace removal, on the ASCII
whitespace subset relevant to the scraped pages. -/
def pyStripChars (l : List Char) : List Char :=
  ((l.dropWhile Char.isWhitespace).reverse.dropWhile Char.isWhitespace).reverse

/-- Python `int(str)` on a character list: strips whitespace, then an
optional sign followed by decimal digits.  (Underscore separators and
non-ASCII digits, which CPython also accepts, are outside the vocabulary of
the scraped pages and are not modelled.)  `none` models a raised
`ValueError`. -/
def pyIntOfChars (l : List Char) : Option ℤ :=
  match pyStripChars l with
  | '+' :: ds => if allDigits ds then some (Int.ofNat (digitsVal ds)) else none
  | '-' :: ds => if allDigits ds then some (-(Int.ofNat (digitsVal ds))) else none
  | ds => if allDigits ds then some (Int.ofNat (digitsVal ds)) else none

/-- Unsigned part of Python `float(str)`: `digits`, `digits.`, `.digits` or
`digits.digits`, returned as an exact decimal.  (Exponents, `inf`/`nan` and
underscores are outside the vocabulary of the scraped pages and are not
modelled.) -/
def pyFloatMag (ds : List Char) : Option Dec :=
  let ip := ds.takeWhile Char.isDigit
  match ds.drop ip.length with
  | [] => if ip.isEmpty then none else some ⟨Int.ofNat (digitsVal ip), 0⟩
  | '.' :: fp =>
    if fp.all Char.isDigit ∧ (ip ≠ [] ∨ fp ≠ []) then
      some ⟨Int.ofNat (digitsVal ip * 10 ^ fp.length + digitsVal fp), fp.length⟩
    else none
  | _ => none

/-- Python `float(str)` on a character list: strips whitespace, then an
optional sign and an unsigned decimal.  `none` models a raised
`ValueError`. -/
def pyFloatOfChars (l : List Char) : Option Dec :=
  match pyStripChars l with
  | '+' :: ds => pyFloatMag ds
  | '-' :: ds => (pyFloatMag ds).map (fun d => ⟨-d.num, d.scale⟩)
  | ds => pyFloatMag ds

/-- Python `int(s)` for a string. -/
def pyIntS (s : String) : Option ℤ := pyIntOfChars s.toList

/-- Python `float(s)` for a string. -/
def pyFloatS (s : String) : Option Dec := pyFloatOfChars s.toList

/-- Python `int(float)` applied to `d.val * mag`: exact truncation toward
zero, computed on integers (`Int.tdiv` is truncating division). -/
def truncDecMul (d : Dec) (mag : ℕ) : ℤ :=
  Int.tdiv (d.num * (mag : ℤ)) (Int.ofNat (10 ^ d.scale))

/-- `webapp.py` lines 11-18, `text_to_num`: converts an abbreviated count
such as `12K` or `3.4M` to a number.  `text[-1]` on the empty string raises
`IndexError`, and a failing `float` conversion raises `ValueError`; both are
modelled by `none`. -/
def text_to_num (text : String) : Option PyNum :=
  match text.toList.getLast? with
  | none => none
  | some c =>
    if c = 'K' then
      (pyFloatOfChars text.toList.dropLast).map (fun d => PyNum.int (truncDecMul d 1000))
    else if c = 'M' then
      (pyFloatOfChars text.toList.dropLast).map (fun d => PyNum.int (truncDecMul d 1000000))
    else
      (pyFloatS text).map PyNum.float

deriving instance DecidableEq for Except

/-- Result of a successful `Except`, `none` if it raised. -/
def okOf : Except PyErr α → Option α
  | .ok a => some a
  | .error _ => none

/-- Error of an `Except`, `none` if it returned normally. -/
def errOf : Except PyErr α → Option PyErr
  | .ok _ => none
  | .error e => some e

/-- The two components of `urllib.parse.urlparse` that the webapp consumes. -/
structure UrlParts where
  scheme : List Char
  netloc : List Char
  deriving DecidableEq, Repr

/-- `scheme_chars` of `urllib.parse`: ASCII letters, digits, and `+-.`. -/
def isSchemeChar (c : Char) : Bool :=
  c.isAlpha || c.isDigit || c == '+' || c == '-' || c == '.'

/-- Scheme detection of `urllib.parse.urlsplit`: the text before the first
colon becomes the (lowercased) scheme when it is nonempty, starts with an
ASCII letter, and consists of scheme characters. -/
def splitScheme (l : List Char) : List Char × List Char :=
  match l.findIdx? (· == ':') with
  | some i =>
    if 0 < i ∧ (l.headD ' ').isAlpha ∧ (l.take i).all isSchemeChar then
      ((l.take i).map Char.toLower, l.drop (i + 1))
    else ([], l)
  | none => ([], l)

/-- `urllib.parse.urlsplit`, restricted to the `scheme`/`netloc` components
the webapp reads: tab, CR and LF are removed; the scheme is split off; after
`//` the netloc extends to the first `/`, `?` or `#`; a netloc containing
one of `[`, `]` without the other raises `ValueError` (Invalid IPv6 URL).
The additional bracketed-host validation of CPython 3.11+ and the non-ASCII
NFKC netloc check are outside the ASCII inputs in scope and not modelled. -/
def urlsplitModel (url : List Char) : Except PyErr UrlParts :=
  let u := url.filter (fun c => !(c == '\t' || c == '\r' || c == '\n'))
  let p := splitScheme u
  if p.2.take 2 = ['/', '/'] then
    let netloc := (p.2.drop 2).takeWhile (fun c => !(c == '/' || c == '?' || c == '#'))
    if (netloc.contains '[' && !netloc.contains ']')
        || (netloc.contains ']' && !netloc.contains '[') then
      .error .valueError
    else
      .ok ⟨p.1, netloc⟩
  else
    .ok ⟨p.1, []⟩

/-- The regex `^https://www\.imdb\.com/title/tt\d+/episodes/\?season=$` of
`webapp.py` line 23 as a string predicate: the fixed head, one or more
digits, then the fixed tail.  `\d` is modelled as ASCII digits (the title
ids in scope are ASCII). -/
def urlPatternCore (l : List Char) : Bool :=
  "https://www.imdb.com/title/tt".toList.isPrefixOf l &&
  (let rest := l.drop 29
   let ds := rest.takeWhile Char.isDigit
   !ds.isEmpty && rest.drop ds.length == "/episodes/?season=".toList)

/-- `re.match` of the anchored pattern: as in Python, `$` also matches just
before a trailing newline. -/
def urlPatternMatch (l : List Char) : Bool :=
  urlPatternCore l || (l.getLast? == some '\n' && urlPatternCore l.dropLast)

/-- `webapp.py` lines 20-30, `is_valid_imdb_url`: appends the fixed
`episodes/?season=` suffix, requires a scheme and a network location from
`urlparse` (which can raise `ValueError`, modelled by `.error`), then tests
the anchored regex against the suffixed URL. -/
def is_valid_imdb_url (url : String) : Except PyErr Bool :=
  let url2 := url.toList ++ "episodes/?season=".toList
  match urlsplitModel url2 with
  | .error e => .error e
  | .ok parsed =>
    if !parsed.scheme.isEmpty && !parsed.netloc.isEmpty then
      .ok (urlPatternMatch url2)
    else
      .ok false

/-- Python `str.split(sep)` for a nonempty separator, on character lists:
the leftmost occurrence of `sep` is removed and splitting continues after
it; with no occurrence the whole list is one field.  Structural recursion
on a fuel argument; every step consumes at least one character, so fuel
equal to the input length (as supplied by `splitSeq`) is always enough and
the zero-fuel fallback is never reached. -/
def splitSeqAux (sep : List Char) : ℕ → List Char → List (List Char)
  | _, [] => [[]]
  | 0, l => [l]
  | fuel + 1, c :: rest =>
    if sep ≠ [] ∧ sep.isPrefixOf (c :: rest) then
      [] :: splitSeqAux sep fuel ((c :: rest).drop sep.length)
    else
      match splitSeqAux sep fuel rest with
      | [] => [[c]]
      | p :: ps => (c :: p) :: ps

/-- Python `str.split(sep)` for a nonempty separator. -/
def splitSeq (sep l : List Char) : List (List Char) := splitSeqAux sep l.length l

/-- One attempt to match the regex `S[0-9]+\.E([0-9]+)` at the head of `l`:
returns the captured second digit run and the remainder after the match. -/
def matchEpnum (l : List Char) : Option (List Char × List Char) :=
  match l with
  | 'S' :: r1 =>
    let d1 := r1.takeWhile Char.isDigit
    if d1.isEmpty then none
    else
      match r1.drop d1.length with
      | '.' :: 'E' :: r2 =>
        let d2 := r2.takeWhile Char.isDigit
        if d2.isEmpty then none else some (d2, r2.drop d2.length)
      | _ => none
  | _ => none

/-- `epnum.sub` replacement loop, fuelled like `splitSeqAux`: a successful
match consumes at least five characters and a failed position one, so fuel
equal to the input length is always enough. -/
def epnumSubAux : ℕ → List Char → List Char
  | _, [] => []
  | 0, l => l
  | fuel + 1, c :: rest =>
    match matchEpnum (c :: rest) with
    | some (cap, r2) => cap ++ epnumSubAux fuel r2
    | none => c :: epnumSubAux fuel rest

/-- `epnum.sub` from `webapp.py` lines 78 and 95: every non-overlapping
occurrence of `S[0-9]+\.E([0-9]+)` is replaced by its captured group. -/
def epnumSub (l : List Char) : List Char := epnumSubAux l.length l

/-- `re.search` of `ratingmatch = (\d+(?:\.\d+)?)` (`webapp.py` line 79):
the leftmost digit run, extended by a decimal point and a second digit run
when present; `none` when the text has no digit. -/
def searchRating : List Char → Option (List Char)
  | [] => none
  | c :: rest =>
    if c.isDigit then
      let ds := (c :: rest).takeWhile Char.isDigit
      some
        (match (c :: rest).drop ds.length with
        | '.' :: r2 =>
          let fs := r2.takeWhile Char.isDigit
          if fs.isEmpty then ds else ds ++ '.' :: fs
        | _ => ds)
    else searchRating rest

/-- `re.search` of `votesmatch = \(([^)]*)\)` (`webapp.py` line 80): the
text between the leftmost `(` that is followed by a `)` and that `)`. -/
def searchVotes : List Char → Option (List Char)
  | [] => none
  | '(' :: rest =>
    let content := rest.takeWhile (fun c => !(c == ')'))
    match rest.drop content.length with
    | ')' :: _ => some content
    | _ => none
  | _ :: rest => searchVotes rest

/-- A `datetime` as far as the webapp observes it: the calendar date parsed
by `strptime` (the parsed weekday abbreviation is validated but discarded by
`datetime`). -/
structure PyDate where
  year : ℕ
  month : ℕ
  day : ℕ
  deriving DecidableEq, Repr

/-- Gregorian leap-year rule, as used by `datetime` for day validation. -/
def isLeap (y : ℕ) : Bool :=
  y % 4 == 0 && (y % 100 != 0 || y % 400 == 0)

/-- Number of days in a month, as used by `datetime` for day validation. -/
def daysInMonth (y m : ℕ) : ℕ :=
  if m = 2 then (if isLeap y then 29 else 28)
  else if m = 4 ∨ m = 6 ∨ m = 9 ∨ m = 11 then 30
  else 31

/-- Abbreviated month names recognised by `strptime` `%b` in the C locale,
with their month numbers. -/
def monthAbbrs : List (String × ℕ) :=
  [("Jan", 1), ("Feb", 2), ("Mar", 3), ("Apr", 4), ("May", 5), ("Jun", 6),
   ("Jul", 7), ("Aug", 8), ("Sep", 9), ("Oct", 10), ("Nov", 11), ("Dec", 12)]

/-- Abbreviated weekday names recognised by `strptime` `%a` in the C locale. -/
def weekdayAbbrs : List String :=
  ["Mon", "Tue", "Wed", "Thu", "Fri", "Sat", "Sun"]

/-- Drops the first candidate of `cands` that is a prefix of `l`. -/
def matchFirst (cands : List String) (l : List Char) : Option (List Char) :=
  match cands with
  | [] => none
  | s :: rest =>
    if s.toList.isPrefixOf l then some (l.drop s.toList.length) else matchFirst rest l

/-- Matches one month abbreviation at the head of `l`, returning its number
and the remainder. -/
def matchMonth (cands : List (String × ℕ)) (l : List Char) : Option (ℕ × List Char) :=
  match cands with
  | [] => none
  | (s, m) :: rest =>
    if s.toList.isPrefixOf l then some (m, l.drop s.toList.length) else matchMonth rest l

/-- `datetime.strptime(text, r"%a, %b %d, %Y")` from `webapp.py` line 115:
weekday abbreviation, a comma-space, month abbreviation, space, a one- or
two-digit day, comma-space, a one- to four-digit year, end of input.  The
day must fit the month and the year is at least 1, as validated by
`datetime`.  (`strptime` matches the abbreviations case-insensitively; only
the capitalised C-locale forms occurring on the scraped pages are
modelled.)  `none` models a raised `ValueError`. -/
def parseAirDate (l : List Char) : Option PyDate := do
  let r1 ← matchFirst weekdayAbbrs l
  let r2 ← if [',', ' '].isPrefixOf r1 then some (r1.drop 2) else none
  let (m, r3) ← matchMonth monthAbbrs r2
  let r4 ← if [' '].isPrefixOf r3 then some (r3.drop 1) else none
  let dds := (r4.takeWhile Char.isDigit).take 2
  if dds.isEmpty then none else
  let day := digitsVal dds
  let r5 := r4.drop dds.length
  let r6 ← if [',', ' '].isPrefixOf r5 then some (r5.drop 2) else none
  let yds := (r6.takeWhile Char.isDigit).take 4
  if yds.isEmpty then none else
  let year := digitsVal yds
  let r7 := r6.drop yds.length
  if r7.isEmpty ∧ 1 ≤ year ∧ 1 ≤ day ∧ day ≤ daysInMonth year m then
    some ⟨year, m, day⟩
  else none

/-- The separator literal of `webapp.py` lines 95 and 99.  The source file
contains the UTF-8 bytes of the bullet U+2219 re-encoded through Latin-1,
so the Python string is the five characters space, U+00E2, U+02C6, U+2122,
space. -/
def sepChars : List Char := [' ', 'â', 'ˆ', '™', ' ']

/-- The decimal-point dispatch idiom of `webapp.py` lines 49-52 and
108-111: `float(s)` when the text contains a dot, else `int(s)`. -/
def dotNum (l : List Char) : Option PyNum :=
  if l.contains '.' then (pyFloatOfChars l).map PyNum.float
  else (pyIntOfChars l).map PyNum.int

/-- One episode block of a season page, as the webapp reads it: the text of
each of the four elements it looks up with `find`, or `none` when the
element is absent (`find` returned Python `None`). -/
structure EpBlock where
  titleText : Option String
  ratingText : Option String
  airdateText : Option String
  descriptionText : Option String
  deriving DecidableEq, Repr

/-- The fields extracted from one episode block, before the caller attaches
the season and cumulative numbers. -/
structure BlockData where
  episode_number : ℤ
  title : String
  rating_value : PyNum
  votes : PyNum
  air_date : PyDate
  description : String
  deriving DecidableEq, Repr

/-- `webapp.py` lines 93-117, the body of the per-episode loop on one
block, in source order: missing title element raises `AttributeError`;
`int(epnum.sub(..., title.split(sep)[0]))` raises `ValueError` on failure;
`title.split(sep)[1]` raises `IndexError` when there is no separator; a
missing rating element raises `AttributeError` which the source catches and
turns into `break` (modelled `.ok none`); a digit-free rating text makes
`re.search(...).group(1)` raise `AttributeError`; missing parentheses make
the votes search raise likewise; `text_to_num`, `strptime` and the
remaining lookups raise as in their own models. -/
def analyzeBlock (b : EpBlock) : Except PyErr (Option BlockData) :=
  match b.titleText with
  | none => .error .attributeError
  | some t0 =>
    let title := pyStripChars t0.toList
    let parts := splitSeq sepChars title
    match pyIntOfChars (epnumSub (parts.headD [])) with
    | none => .error .valueError
    | some epn =>
      match parts.get? 1 with
      | none => .error .indexError
      | some t1 =>
        match b.ratingText with
        | none => .ok none
        | some r0 =>
          let rating := pyStripChars r0.toList
          match searchRating rating with
          | none => .error .attributeError
          | some rv =>
            match dotNum rv with
            | none => .error .valueError
            | some rating_value =>
              match searchVotes rating with
              | none => .error .attributeError
              | some vtext =>
                match text_to_num (String.mk vtext) with
                | none => .error .valueError
                | some votes =>
                  match b.airdateText with
                  | none => .error .attributeError
                  | some a0 =>
                    match parseAirDate (pyStripChars a0.toList) with
                    | none => .error .valueError
                    | some air =>
                      match b.descriptionText with
                      | none => .error .attributeError
                      | some d0 =>
                        .ok (some ⟨epn, String.mk t1, rating_value, votes, air,
                          String.mk (pyStripChars d0.toList)⟩)

/-- One row of `series_episode_data` (`webapp.py` line 120). -/
structure Record where
  season : ℤ
  episode_number : ℤ
  cumulative_episode_number : ℕ
  title : String
  air_date : PyDate
  rating_value : PyNum
  votes : PyNum
  description : String
  deriving DecidableEq, Repr

/-- `webapp.py` lines 90-121, the per-episode loop over one season's
blocks, threading the cumulative episode counter.  The counter is
incremented (line 97) before the rating lookup, so the `break` on a missing
rating still advances it; an uncaught exception aborts everything. -/
def extractEpisodes (season : ℤ) : List EpBlock → ℕ → Except PyErr (List Record × ℕ)
  | [], cum => .ok ([], cum)
  | b :: rest, cum =>
    match analyzeBlock b with
    | .error e => .error e
    | .ok none => .ok ([], cum + 1)
    | .ok (some d) =>
      match extractEpisodes season rest (cum + 1) with
      | .error e => .error e
      | .ok (recs, cum2) =>
        .ok (⟨season, d.episode_number, cum + 1, d.title, d.air_date,
          d.rating_value, d.votes, d.description⟩ :: recs, cum2)

/-- Outcome of one `requests.get`, abstracted: a response with its HTTP
status and (already parsed) body, a `RequestException`, or any other
exception. -/
inductive FetchOutcome (α : Type) where
  | response (status : ℕ) (body : α)
  | netError
  | otherError
  deriving DecidableEq, Repr

/-- The classified `st.error` message kinds of `webapp.py` lines 38-43. -/
inductive Shown where
  | httpError (status : ℕ)
  | requestError
  | unexpectedError
  deriving DecidableEq, Repr

/-- `webapp.py` lines 32-43, `scrape_data`: returns the markup for a
non-error response and Python `None` (here `none`) after displaying one
classified error message otherwise; `raise_for_status` raises `HTTPError`
exactly for statuses 400-599. -/
def scrape_data {α : Type} : FetchOutcome α → Option α × Option Shown
  | .response status body =>
    if 400 ≤ status ∧ status < 600 then (none, some (.httpError status))
    else (some body, none)
  | .netError => (none, some .requestError)
  | .otherError => (none, some .unexpectedError)

/-- Python `range(1, n + 1)` as a list of ints. -/
def pyRange1 (n : ℤ) : List ℤ :=
  (List.range' 1 n.toNat).map (fun k => (k : ℤ))

/-- `webapp.py` lines 61-67: the loop that parses each season-tab label
with `int`, skipping labels that raise `ValueError`.  Its result is
assigned to `seasons` and immediately overwritten at line 68; it is kept
here because the specification refers to it. -/
def integerTabs (tabs : List String) : List ℤ :=
  tabs.filterMap (fun t => pyIntOfChars (pyStripChars t.toList))

/-- `webapp.py` lines 60-68, season discovery: `seasons` is rebuilt as
`range(1, int(seasontabs[-1].text.strip()) + 1)` from the LAST tab only;
`seasontabs[-1]` raises `IndexError` on an empty tab list and `int` raises
`ValueError` on a non-integer last label. -/
def discoverSeasons (tabs : List String) : Except PyErr (List ℤ) :=
  match tabs.getLast? with
  | none => .error .indexError
  | some t =>
    match pyIntOfChars (pyStripChars t.toList) with
    | none => .error .valueError
    | some n => .ok (pyRange1 n)

/-- The root (show) page as the webapp reads it: the text of the rating and
vote-count elements, or `none` when absent. -/
structure RootPage where
  ratingText : Option String
  votesText : Option String
  deriving DecidableEq, Repr

/-- The episodes-index page as the webapp reads it: the stripped-at-use tab
label texts, the show-name element text, and the `src` of the poster image
matching the alt-text/class lookup of line 74 when one exists. -/
structure IndexPage where
  tabTexts : List String
  showName : Option String
  posterSrc : Option String
  deriving DecidableEq, Repr

/-- The fetch environment of one `parse_data` call: the outcome of the
episodes-index fetch (line 58) and, per season number, the outcome of that
season's fetch (line 86).  Bodies are carried already parsed, since
`BeautifulSoup` on a fetched string is deterministic. -/
structure SeasonEnv where
  indexFetch : FetchOutcome IndexPage
  seasonFetch : ℤ → FetchOutcome (List EpBlock)

/-- The triple returned by `parse_data` (line 123): the episode rows, the
`overall_series_data` list `[rating, votes, show_name]`, and the poster
URL. -/
structure ParseOutput where
  episodes : List Record
  seriesRating : PyNum
  seriesVotes : PyNum
  showName : String
  posterUrl : String
  deriving DecidableEq, Repr

/-- `webapp.py` lines 85-121, the season loop.  A failed season fetch makes
`scrape_data` return Python `None`, and `BeautifulSoup(None, ...)` at line
87 then raises `TypeError` (`len()` of `None`); the displayed message of
the inner `scrape_data` call is not tracked here. -/
def seasonLoop (env : SeasonEnv) : List ℤ → ℕ → Except PyErr (List Record × ℕ)
  | [], cum => .ok ([], cum)
  | s :: ss, cum =>
    match (scrape_data (env.seasonFetch s)).1 with
    | none => .error .typeError
    | some blocks =>
      match extractEpisodes s blocks cum with
      | .error e => .error e
      | .ok (recs, cum1) =>
        match seasonLoop env ss cum1 with
        | .error e => .error e
        | .ok (recs2, cum2) => .ok (recs ++ recs2, cum2)

/-- `webapp.py` lines 45-123, `parse_data`, in source order: series rating
(dot-dispatched), series votes, episodes-index fetch (whose failure, like a
season fetch failure, raises `TypeError` at the `BeautifulSoup` call),
season discovery, show name, poster with its `Image not found` sentinel,
then the season loop with the cumulative counter starting at 0. -/
def parse_data (root : RootPage) (env : SeasonEnv) : Except PyErr ParseOutput :=
  match root.ratingText with
  | none => .error .attributeError
  | some rt =>
    match dotNum (pyStripChars rt.toList) with
    | none => .error .valueError
    | some seriesRating =>
      match root.votesText with
      | none => .error .attributeError
      | some vt =>
        match text_to_num (String.mk (pyStripChars vt.toList)) with
        | none => .error .valueError
        | some seriesVotes =>
          match (scrape_data env.indexFetch).1 with
          | none => .error .typeError
          | some idx =>
            let _ := integerTabs idx.tabTexts
            match discoverSeasons idx.tabTexts with
            | .error e => .error e
            | .ok seasons =>
              match idx.showName with
              | none => .error .attributeError
              | some sn =>
                let showName := String.mk (pyStripChars sn.toList)
                let posterUrl := idx.posterSrc.getD "Image not found"
                match seasonLoop env seasons 0 with
                | .error e => .error e
                | .ok (recs, _) =>
                  .ok ⟨recs, seriesRating, seriesVotes, showName, posterUrl⟩

/-- The fetch environment of one whole scrape: the root-page fetch of line
291 plus the `parse_data` environment. -/
structure Env where
  rootFetch : FetchOutcome RootPage
  seasonEnv : SeasonEnv

/-- The user-visible outcome of the scrape-button handler. -/
inductive RunOutcome where
  | invalidUrl
  | fetchFailed (shown : Option Shown)
  | success (out : ParseOutput)
  deriving DecidableEq, Repr

/-- `webapp.py` lines 286-300, the scrape-button handler: URL validation
(whose `urlparse` exception would propagate), the root fetch (a falsy
`html_data` shows the classified message and then `Failed to scrape
data.`), then `parse_data`.  An empty-string response body, which is also
falsy in Python, is not distinguished from `None` here since bodies are
carried in parsed form. -/
def runScrape (urlInput : String) (env : Env) : Except PyErr RunOutcome :=
  match is_valid_imdb_url urlInput with
  | .error e => .error e
  | .ok false => .ok .invalidUrl
  | .ok true =>
    match scrape_data env.rootFetch with
    | (none, shown) => .ok (.fetchFailed shown)
    | (some root, _) =>
      match parse_data root env.seasonEnv with
      | .error e => .error e
      | .ok out => .ok (.success out)

/-- A fully well-formed episode block used in concrete scenarios. -/
def okBlock : EpBlock :=
  ⟨some "S1.E5 âˆ™ Pilot", some "8.5 (1.2K)", some "Mon, Jan 1, 2024", some "d"⟩

/-- A block whose title parses but whose rating element is absent (a
future/unaired episode). -/
def unratedBlock : EpBlock :=
  ⟨some "S1.E6 âˆ™ Next", none, some "Mon, Jan 8, 2024", some "d"⟩

/-- The record that `extractEpisodes` produces from `okBlock` for season
`s` with cumulative number `c`. -/
def okRecord (s : ℤ) (c : ℕ) : Record :=
  ⟨s, 5, c, "Pilot", ⟨2024, 1, 1⟩, .float ⟨85, 1⟩, .int 1200, "d"⟩

/-- A root page whose rating and vote texts parse. -/
def root0 : RootPage := ⟨some "8", some "1.2K"⟩

/-- An episodes-index page with two integer season tabs. -/
def index0 : IndexPage := ⟨["1", "2"], some "Show", none⟩

/-- Two seasons; season 1 has one rated block and then an unrated one. -/
def senvGap : SeasonEnv :=
  ⟨.response 200 index0,
   fun s => if s = 1 then .response 200 [okBlock, unratedBlock]
            else .response 200 [okBlock]⟩

/-- Two seasons with exactly 8 and 10 fully rated blocks. -/
def senv18 : SeasonEnv :=
  ⟨.response 200 index0,
   fun s => if s = 1 then .response 200 (List.replicate 8 okBlock)
            else .response 200 (List.replicate 10 okBlock)⟩

/-- One season with one fully rated block. -/
def senvOne : SeasonEnv :=
  ⟨.response 200 ⟨["1"], some "Show", none⟩, fun _ => .response 200 [okBlock]⟩

/-- Two seasons; season 1's fetch returns HTTP 404, season 2 is fine. -/
def senv404 : SeasonEnv :=
  ⟨.response 200 index0,
   fun s => if s = 1 then .response 404 [] else .response 200 [okBlock]⟩

/-- The expected `parse_data` output for `senvOne`. -/
def outOne : ParseOutput :=
  ⟨[okRecord 1 1], .int 8, .int 1200, "Show", "Image not found"⟩

/-- No occurrence of `sep` starts strictly inside `a`, not even one that
continues into an immediately following copy of `sep`; under this condition
splitting `a ++ sep ++ b` isolates `a` as the first field. -/
def CleanBefore (sep a : List Char) : Prop :=
  ∀ i < a.length, ¬ sep.isPrefixOf (a.drop i ++ sep)

instance (sep a : List Char) : Decidable (CleanBefore sep a) :=
  Nat.decidableBallLT _ _

/-- The `BlockData` that `analyzeBlock` extracts from `okBlock`. -/
def okData : BlockData := ⟨5, "Pilot", .float ⟨85, 1⟩, .int 1200, ⟨2024, 1, 1⟩, "d"⟩

/-- A block whose combined number-title text contains the separator inside
the title part as well. -/
def sepTitleBlock : EpBlock :=
  ⟨some "S1.E5 âˆ™ Part âˆ™ Two", some "8.5 (1.2K)", some "Mon, Jan 1, 2024", some "d"⟩

/-! ## Lemmas about the extraction loop -/

/-- Within one season the cumulative numbers attached to the produced
records are consecutive, starting right above the incoming counter, and the
returned counter is at least the incoming counter plus the record count
(one more when the season ended on an unrated block). -/
theorem extractEpisodes_cums (s : ℤ) (bs : List EpBlock) :
    ∀ (cum : ℕ) (recs : List Record) (cum2 : ℕ),
      extractEpisodes s bs cum = .ok (recs, cum2) →
      recs.map (·.cumulative_episode_number) = List.range' (cum + 1) recs.length ∧
      cum + recs.length ≤ cum2 := by
  induction bs with
  | nil =>
    intro cum recs cum2 h
    simp only [extractEpisodes, Except.ok.injEq, Prod.mk.injEq] at h
    obtain ⟨h1, h2⟩ := h
    subst h1
    subst h2
    simp
  | cons b rest ih =>
    intro cum recs cum2 h
    simp only [extractEpisodes] at h
    cases hb : analyzeBlock b with
    | error e => simp [hb] at h
    | ok od =>
      cases od with
      | none =>
        simp only [hb, Except.ok.injEq, Prod.mk.injEq] at h
        obtain ⟨h1, h2⟩ := h
        subst h1
        subst h2
        simp
      | some d =>
        simp only [hb] at h
        cases hrec : extractEpisodes s rest (cum + 1) with
        | error e => simp [hrec] at h
        | ok p =>
          obtain ⟨recs1, cum1⟩ := p
          simp only [hrec, Except.ok.injEq, Prod.mk.injEq] at h
          obtain ⟨h1, h2⟩ := h
          subst h1
          subst h2
          obtain ⟨ihm, ihl⟩ := ih (cum + 1) recs1 _ hrec
          constructor
          · simp only [List.map_cons, List.length_cons, ihm, List.range'_succ]
          · simp only [List.length_cons]
            omega

/-- Across the season loop, the cumulative numbers of the produced records
are strictly increasing, lie strictly above the incoming counter and at
most at the returned counter, and the counter never decreases. -/
theorem seasonLoop_pairwise (env : SeasonEnv) (ss : List ℤ) :
    ∀ (cum : ℕ) (recs : List Record) (cum2 : ℕ),
      seasonLoop env ss cum = .ok (recs, cum2) →
      List.Pairwise (· < ·) (recs.map (·.cumulative_episode_number)) ∧
      (∀ x ∈ recs.map (·.cumulative_episode_number), cum < x ∧ x ≤ cum2) ∧
      cum ≤ cum2 := by
  induction ss with
  | nil =>
    intro cum recs cum2 h
    simp only [seasonLoop, Except.ok.injEq, Prod.mk.injEq] at h
    obtain ⟨h1, h2⟩ := h
    subst h1
    subst h2
    simp
  | cons s ss ih =>
    intro cum recs cum2 h
    simp only [seasonLoop] at h
    cases hfetch : (scrape_data (env.seasonFetch s)).1 with
    | none => simp [hfetch] at h
    | some blocks =>
      simp only [hfetch] at h
      cases hex : extractEpisodes s blocks cum with
      | error e => simp [hex] at h
      | ok p1 =>
        obtain ⟨recs1, cum1⟩ := p1
        simp only [hex] at h
        cases hloop : seasonLoop env ss cum1 with
        | error e => simp [hloop] at h
        | ok p2 =>
          obtain ⟨recs2, cum2'⟩ := p2
          simp only [hloop, Except.ok.injEq, Prod.mk.injEq] at h
          obtain ⟨h1, h2⟩ := h
          subst h1
          subst h2
          obtain ⟨hm1, hl1⟩ := extractEpisodes_cums s blocks cum recs1 cum1 hex
          obtain ⟨hp2, hb2, hc2⟩ := ih cum1 recs2 _ hloop
          have hcum1 : cum ≤ cum1 := le_trans (Nat.le_add_right _ _) hl1
          refine ⟨?_, ?_, le_trans hcum1 hc2⟩
          · rw [List.map_append, List.pairwise_append]
            refine ⟨?_, hp2, ?_⟩
            · rw [hm1]
              exact List.pairwise_lt_range' _ _
            · intro a ha b hb
              rw [hm1, List.mem_range'_1] at ha
              have := (hb2 b hb).1
              omega
          · intro x hx
            rw [List.map_append, List.mem_append] at hx
            rcases hx with hx | hx
            · rw [hm1, List.mem_range'_1] at hx
              have : cum + recs1.length ≤ cum2' := le_trans hl1 hc2
              omega
            · obtain ⟨hgt, hle⟩ := hb2 x hx
              exact ⟨lt_of_le_of_lt hcum1 hgt, hle⟩

theorem parse_data_pairwise (root : RootPage) (env : SeasonEnv) (out : ParseOutput)
    (h : parse_data root env = .ok out) :
    List.Pairwise (· < ·) (out.episodes.map (·.cumulative_episode_number)) := by
  unfold parse_data at h
  repeat' split at h
  any_goals exact Except.noConfusion h
  simp only [Except.ok.injEq] at h
  subst h
  exact (seasonLoop_pairwise _ _ 0 _ _ (by assumption)).1

theorem extractEpisodes_break (s : ℤ) (front : List EpBlock) (bad : EpBlock)
    (hbad : analyzeBlock bad = .ok none)
    (hfront : ∀ b ∈ front, ∃ d, analyzeBlock b = .ok (some d)) :
    ∀ cum : ℕ, ∃ recs : List Record,
      recs.length = front.length ∧
      ∀ rest : List EpBlock,
        extractEpisodes s (front ++ bad :: rest) cum = .ok (recs, cum + front.length + 1) := by
  induction front with
  | nil =>
    intro cum
    refine ⟨[], rfl, fun rest => ?_⟩
    simp [extractEpisodes, hbad]
  | cons b front ih =>
    intro cum
    obtain ⟨d, hd⟩ := hfront b (by simp)
    obtain ⟨recs, hlen, hrecs⟩ :=
      ih (fun x hx => hfront x (by simp [hx])) (cum + 1)
    refine ⟨⟨s, d.episode_number, cum + 1, d.title, d.air_date,
      d.rating_value, d.votes, d.description⟩ :: recs, by simp [hlen], fun rest => ?_⟩
    have harith : cum + (b :: front).length + 1 = cum + 1 + front.length + 1 := by
      simp only [List.length_cons]
      omega
    rw [harith]
    have h1 : extractEpisodes s (front.append (bad :: rest)) (cum + 1) =
        .ok (recs, cum + 1 + front.length + 1) := hrecs rest
    simp only [List.cons_append, extractEpisodes, hd, h1]

theorem splitSeqAux_fuel_eq (sep : List Char) :
    ∀ f1 f2 l, l.length ≤ f1 → l.length ≤ f2 →
      splitSeqAux sep f1 l = splitSeqAux sep f2 l := by
  intro f1
  induction f1 with
  | zero =>
    intro f2 l h1 _
    have : l = [] := List.length_eq_zero.mp (Nat.le_zero.mp h1)
    subst this
    cases f2 <;> rfl
  | succ f1 ih =>
    intro f2 l h1 h2
    cases l with
    | nil => cases f2 <;> rfl
    | cons c rest =>
      obtain ⟨g2, rfl⟩ : ∃ g2, f2 = g2 + 1 := ⟨f2 - 1, by simp at h2; omega⟩
      simp only [splitSeqAux]
      by_cases hcond : sep ≠ [] ∧ sep.isPrefixOf (c :: rest)
      · have hpos : 0 < sep.length := List.length_pos.mpr hcond.1
        simp only [if_pos hcond]
        have hlen : ((c :: rest).drop sep.length).length ≤ f1 := by
          simp only [List.length_drop, List.length_cons]
          simp only [List.length_cons] at h1
          omega
        have hlen2 : ((c :: rest).drop sep.length).length ≤ g2 := by
          simp only [List.length_drop, List.length_cons]
          simp only [List.length_cons] at h2
          omega
        rw [ih _ _ hlen hlen2]
      · simp only [if_neg hcond]
        have hlen : rest.length ≤ f1 := by
          simp only [List.length_cons] at h1
          omega
        have hlen2 : rest.length ≤ g2 := by
          simp only [List.length_cons] at h2
          omega
        rw [ih _ _ hlen hlen2]

theorem splitSeq_cons (sep : List Char) (c : Char) (rest : List Char) :
    splitSeq sep (c :: rest) =
      if sep ≠ [] ∧ sep.isPrefixOf (c :: rest) then
        [] :: splitSeq sep ((c :: rest).drop sep.length)
      else
        match splitSeq sep rest with
        | [] => [[c]]
        | p :: ps => (c :: p) :: ps := by
  unfold splitSeq
  simp only [List.length_cons, splitSeqAux]
  by_cases hcond : sep ≠ [] ∧ sep.isPrefixOf (c :: rest)
  · have hpos : 0 < sep.length := List.length_pos.mpr hcond.1
    simp only [if_pos hcond]
    rw [splitSeqAux_fuel_eq sep rest.length ((c :: rest).drop sep.length).length _
      (by simp only [List.length_drop, List.length_cons]; omega) le_rfl]
  · simp only [if_neg hcond]
theorem prefix_of_append_of_le {p x y : List Char} (hle : p.length ≤ x.length) :
    p <+: (x ++ y) ↔ p <+: x := by
  rw [List.prefix_iff_eq_take, List.prefix_iff_eq_take, List.take_append_of_le_length hle]

theorem splitSeq_append_sep (sep : List Char) (hsep : sep ≠ []) :
    ∀ a b : List Char, CleanBefore sep a →
      splitSeq sep (a ++ sep ++ b) = a :: splitSeq sep b := by
  intro a
  induction a with
  | nil =>
    intro b _
    simp only [List.nil_append]
    obtain ⟨c, rest, hcr⟩ : ∃ c rest, sep ++ b = c :: rest := by
      cases hcb : sep ++ b with
      | nil =>
        cases sep with
        | nil => exact absurd rfl hsep
        | cons s ss => simp at hcb
      | cons c cs => exact ⟨c, cs, rfl⟩
    have hpre : sep.isPrefixOf (c :: rest) := by
      rw [← hcr]
      exact List.isPrefixOf_iff_prefix.mpr (List.prefix_append sep b)
    rw [hcr, splitSeq_cons, if_pos ⟨hsep, hpre⟩, ← hcr, List.drop_left]
  | cons c a ih =>
    intro b hclean
    have hcl0 : ¬ sep.isPrefixOf (c :: (a ++ sep)) := by
      simpa using hclean 0 (by simp)
    have hcla : CleanBefore sep a := fun i hi => by
      simpa using hclean (i + 1) (by simpa using Nat.succ_lt_succ hi)
    have hnp : ¬ sep.isPrefixOf (c :: (a ++ sep ++ b)) := by
      have he : c :: (a ++ sep ++ b) = (c :: (a ++ sep)) ++ b := by simp
      rw [he]
      intro hx
      exact hcl0 ( List.isPrefixOf_iff_prefix.mpr
        ((prefix_of_append_of_le (by simp; omega)).mp ( List.isPrefixOf_iff_prefix.mp hx)))
    have hgoal : (c :: a) ++ sep ++ b = c :: (a ++ sep ++ b) := by simp
    rw [hgoal, splitSeq_cons, if_neg (fun hx => hnp hx.2), ih b hcla]
/-- C9 (amended): when the stripped combined number-title text has the
form `n ++ sep ++ t ++ sep ++ r` with clean occurrences of the separator,
a successful block analysis takes the episode number from the numeric
token `n` alone, and the title is ONLY the segment `t` between the first
and second separators: the remainder `r` after the second separator is
dropped rather than kept in the title. -/
theorem analyzeBlock_title_parts (b : EpBlock) (t0 : String) (n t r : List Char)
    (d : BlockData)
    (hb : b.titleText = some t0)
    (hsplit : pyStripChars t0.toList = n ++ sepChars ++ t ++ sepChars ++ r)
    (hn : CleanBefore sepChars n) (ht : CleanBefore sepChars t)
    (hd : analyzeBlock b = .ok (some d)) :
    pyIntOfChars (epnumSub n) = some d.episode_number ∧ d.title = String.mk t := by
  have h1 : n ++ sepChars ++ t ++ sepChars ++ r = n ++ sepChars ++ (t ++ sepChars ++ r) := by
    simp only [List.append_assoc]
  have hparts : splitSeq sepChars (pyStripChars t0.toList) = n :: t :: splitSeq sepChars r := by
    rw [hsplit, h1, splitSeq_append_sep sepChars (by decide) n _ hn,
      splitSeq_append_sep sepChars (by decide) t r ht]
  unfold analyzeBlock at hd
  rw [hb] at hd
  simp only [hparts, List.headD_cons, List.get?_cons_succ, List.get?_cons_zero] at hd
  repeat' split at hd
  any_goals exact Except.noConfusion hd
  any_goals exact Option.noConfusion (Except.ok.inj hd)
  simp only [Except.ok.injEq, Option.some.injEq] at hd
  subst hd
  exact ⟨by assumption, rfl⟩
/-- When the scaled product is not divisible by the scale, its truncation
toward zero differs from the exact product value. -/
theorem truncDecMul_ne_val (d : Dec) (mag : ℕ)
    (hnd : (d.num * (mag : ℤ)) % Int.ofNat (10 ^ d.scale) ≠ 0) :
    ((truncDecMul d mag : ℤ) : ℚ) ≠ d.val * (mag : ℚ) := by
  intro heq
  apply hnd
  have hp : (Int.ofNat (10 ^ d.scale)) ≠ 0 := by
    simp only [Int.ofNat_eq_natCast, ne_eq, Nat.cast_eq_zero]
    positivity
  have hpQ : ((Int.ofNat (10 ^ d.scale) : ℤ) : ℚ) ≠ 0 := by
    exact_mod_cast hp
  have hQ : ((Int.tdiv (d.num * (mag : ℤ)) (Int.ofNat (10 ^ d.scale)) : ℤ) : ℚ) *
      ((Int.ofNat (10 ^ d.scale) : ℤ) : ℚ) = ((d.num * (mag : ℤ) : ℤ) : ℚ) := by
    rw [show ((Int.tdiv (d.num * (mag : ℤ)) (Int.ofNat (10 ^ d.scale)) : ℤ) : ℚ) =
        d.val * (mag : ℚ) from heq]
    unfold Dec.val
    push_cast
    field_simp
  have hZ : Int.tdiv (d.num * (mag : ℤ)) (Int.ofNat (10 ^ d.scale)) *
      Int.ofNat (10 ^ d.scale) = d.num * (mag : ℤ) := by
    exact_mod_cast hQ
  exact Int.emod_eq_zero_of_dvd
    ⟨Int.tdiv (d.num * (mag : ℤ)) (Int.ofNat (10 ^ d.scale)), ((mul_comm _ _).trans hZ).symm⟩

/-! ## The claims -/

/-- C5 (amended): for every input ending in `K` (resp. `M`) whose leading
portion parses as a decimal, `text_to_num` multiplies the parsed value by
1,000 (resp. 1,000,000) and truncates the product toward zero to an `int`;
any other input is parsed as one decimal `float`; in particular
`text_to_num "12K"` has value 12000, `text_to_num "3.4M"` value 3400000,
and `text_to_num "57"` value 57. -/
theorem text_to_num_suffix_truncates :
    (∀ (s : String) (d : Dec), s.toList.getLast? = some 'K' →
      pyFloatOfChars s.toList.dropLast = some d →
      text_to_num s = some (PyNum.int (truncDecMul d 1000))) ∧
    (∀ (s : String) (d : Dec), s.toList.getLast? = some 'M' →
      pyFloatOfChars s.toList.dropLast = some d →
      text_to_num s = some (PyNum.int (truncDecMul d 1000000))) ∧
    (∀ (s : String) (c : Char), s.toList.getLast? = some c → c ≠ 'K' → c ≠ 'M' →
      text_to_num s = (pyFloatS s).map PyNum.float) ∧
    (text_to_num "12K").map PyNum.val = some 12000 ∧
    (text_to_num "3.4M").map PyNum.val = some 3400000 ∧
    (text_to_num "57").map PyNum.val = some 57 := by
  refine ⟨?_, ?_, ?_, ?_, ?_, ?_⟩
  · intro s d h1 h2
    unfold text_to_num
    rw [h1]
    simp only [reduceIte, Option.map_eq_some']
    exact ⟨d, h2, rfl⟩
  · intro s d h1 h2
    unfold text_to_num
    rw [h1]
    dsimp only
    rw [if_neg (by decide), if_pos rfl, h2]
    rfl
  · intro s c h1 hk hm
    unfold text_to_num
    rw [h1]
    simp [hk, hm]
  · rw [show text_to_num "12K" = some (PyNum.int 12000) from by decide]
    simp [PyNum.val]
  · rw [show text_to_num "3.4M" = some (PyNum.int 3400000) from by decide]
    simp [PyNum.val]
  · rw [show text_to_num "57" = some (PyNum.float ⟨57, 0⟩) from by decide]
    norm_num [PyNum.val, Dec.val]

/-- C5 witness: the suffixed and unsuffixed branches at concrete inputs. -/
theorem text_to_num_suffix_witness :
    text_to_num "5.5K" = some (PyNum.int (truncDecMul ⟨55, 1⟩ 1000)) ∧
    text_to_num "7" = (pyFloatS "7").map PyNum.float :=
  ⟨text_to_num_suffix_truncates.1 "5.5K" ⟨55, 1⟩ (by decide) (by decide),
   text_to_num_suffix_truncates.2.2.1 "7" '7' (by decide) (by decide) (by decide)⟩

/-- C5 counterexample: the claim as stated says a suffixed input evaluates
to the leading decimal times the magnitude; for `2.0005K` the leading
decimal times 1,000 is 2000.5 while `text_to_num` returns the `int`
2000. -/
theorem text_to_num_fractional_product :
    text_to_num "2.0005K" = some (PyNum.int 2000) ∧
    pyFloatS "2.0005" = some ⟨20005, 4⟩ ∧
    (PyNum.int 2000).val ≠ (Dec.val ⟨20005, 4⟩) * 1000 := by
  refine ⟨by decide, by decide, ?_⟩
  norm_num [PyNum.val, Dec.val]

/-- C6 (amended): for every suffixed input whose leading decimal times the
magnitude has a fractional part, `text_to_num` discards the fraction: it
returns the product truncated toward zero as an `int`, whose value differs
from the exact product. -/
theorem text_to_num_truncation_drops_fraction :
    ∀ (s : String) (d : Dec) (c : Char) (mag : ℕ),
      s.toList.getLast? = some c →
      ((c = 'K' ∧ mag = 1000) ∨ (c = 'M' ∧ mag = 1000000)) →
      pyFloatOfChars s.toList.dropLast = some d →
      (d.num * (mag : ℤ)) % Int.ofNat (10 ^ d.scale) ≠ 0 →
      text_to_num s = some (PyNum.int (truncDecMul d mag)) ∧
      ((truncDecMul d mag : ℤ) : ℚ) ≠ d.val * (mag : ℚ) := by
  rintro s d c mag h1 (⟨rfl, rfl⟩ | ⟨rfl, rfl⟩) h2 h3
  · refine ⟨?_, truncDecMul_ne_val d _ h3⟩
    unfold text_to_num
    rw [h1]
    simp only [reduceIte, Option.map_eq_some']
    exact ⟨d, h2, rfl⟩
  · refine ⟨?_, truncDecMul_ne_val d _ h3⟩
    unfold text_to_num
    rw [h1]
    dsimp only
    rw [if_neg (by decide), if_pos rfl, h2]
    rfl

/-- C6 witness: `2.5005K` has a fractional product, is truncated, and the
truncation differs from the exact product. -/
theorem text_to_num_truncation_witness :
    text_to_num "2.5005K" = some (PyNum.int (truncDecMul ⟨25005, 4⟩ 1000)) ∧
    ((truncDecMul ⟨25005, 4⟩ 1000 : ℤ) : ℚ) ≠ Dec.val ⟨25005, 4⟩ * (1000 : ℕ) :=
  text_to_num_truncation_drops_fraction "2.5005K" ⟨25005, 4⟩ 'K' 1000
    (by decide) (Or.inl ⟨rfl, rfl⟩) (by decide) (by decide)

/-- C6 counterexample: `1.2345K` times 1,000 is 1234.5, but the normaliser
returns the `int` 1234 — the fraction is discarded, not round-tripped. -/
theorem text_to_num_drops_fraction_example :
    text_to_num "1.2345K" = some (PyNum.int 1234) ∧
    pyFloatS "1.2345" = some ⟨12345, 4⟩ ∧
    (PyNum.int 1234).val ≠ (Dec.val ⟨12345, 4⟩) * 1000 := by
  refine ⟨by decide, by decide, ?_⟩
  norm_num [PyNum.val, Dec.val]

/-- C10: suffix recognition is case-sensitive (a trailing lowercase `k`
falls through to plain `float` parsing, so `12k` raises instead of
producing 12000) and the empty string raises (`text[-1]` is an
`IndexError`); `none` models the raised exception. -/
theorem text_to_num_case_sensitive_nonempty :
    (∀ s : String, s.toList.getLast? = some 'k' →
      text_to_num s = (pyFloatS s).map PyNum.float) ∧
    text_to_num "12k" = none ∧ text_to_num "" = none := by
  refine ⟨?_, by decide, by decide⟩
  intro s h
  unfold text_to_num
  rw [h]
  simp

/-- C10 witness: the lowercase branch at the concrete input `12k`. -/
theorem text_to_num_case_witness :
    text_to_num "12k" = (pyFloatS "12k").map PyNum.float :=
  text_to_num_case_sensitive_nonempty.1 "12k" (by decide)

/-- C8: the validator accepts the well-formed show-root URL and rejects the
wrong-host, missing-trailing-slash and wrong-scheme variants. -/
theorem is_valid_concrete_cases :
    is_valid_imdb_url "https://www.imdb.com/title/tt1234567/" = .ok true ∧
    is_valid_imdb_url "http://example.com/title/tt1234567/" = .ok false ∧
    is_valid_imdb_url "https://www.imdb.com/title/tt1234567" = .ok false ∧
    is_valid_imdb_url "ftp://www.imdb.com/title/tt1234567/" = .ok false :=
  ⟨by decide, by decide, by decide, by decide⟩

/-- C7 (amended): whenever the suffixed URL fails the anchored pattern the
validator cannot return `true`; but the validator does not always return a
boolean — an input whose derived authority has an unmatched bracket makes
`urlparse` raise `ValueError`. -/
theorem is_valid_false_on_nonmatch_but_can_raise :
    (∀ s : String,
      urlPatternMatch (s.toList ++ "episodes/?season=".toList) = false →
      is_valid_imdb_url s ≠ .ok true) ∧
    is_valid_imdb_url "http://]" = .error .valueError := by
  refine ⟨?_, by decide⟩
  intro s hm hcontra
  unfold is_valid_imdb_url at hcontra
  dsimp only at hcontra
  split at hcontra
  · exact Except.noConfusion hcontra
  · split at hcontra
    · rw [hm] at hcontra
      exact Bool.noConfusion (Except.ok.inj hcontra)
    · exact Bool.noConfusion (Except.ok.inj hcontra)

/-- C7 witness: a plain non-URL input cannot validate. -/
theorem is_valid_nonmatch_witness :
    is_valid_imdb_url "x" ≠ .ok true :=
  is_valid_false_on_nonmatch_but_can_raise.1 "x" (by decide)

/-- C7 counterexample: the validator can raise — on input `https://[` the
derived URL's authority contains `[` without `]` and `urlparse` raises
`ValueError` instead of any boolean being returned. -/
theorem is_valid_raises_on_bracket :
    is_valid_imdb_url "https://[" = .error .valueError := by
  decide

/-- C9 witness: the separator-containing title at a concrete block. -/
theorem title_split_second_segment_witness :
    pyIntOfChars (epnumSub "S1.E5".toList) =
      some ((⟨5, "Part", .float ⟨85, 1⟩, .int 1200, ⟨2024, 1, 1⟩, "d"⟩ :
        BlockData).episode_number) ∧
    (⟨5, "Part", .float ⟨85, 1⟩, .int 1200, ⟨2024, 1, 1⟩, "d"⟩ :
      BlockData).title = String.mk "Part".toList :=
  analyzeBlock_title_parts sepTitleBlock "S1.E5 âˆ™ Part âˆ™ Two"
    "S1.E5".toList "Part".toList "Two".toList
    ⟨5, "Part", .float ⟨85, 1⟩, .int 1200, ⟨2024, 1, 1⟩, "d"⟩
    rfl (by decide) (by decide) (by decide) (by decide)

/-- C9 counterexample: for a block whose combined field contains the
separator inside the title as well, the extracted title is the second
segment `Part`, not the entire remainder `Part ∙ Two` of the string. -/
theorem title_not_entire_remainder :
    (okOf (analyzeBlock sepTitleBlock)).map (fun od => od.map (·.title)) =
      some (some "Part") ∧
    ("Part" : String) ≠ "Part âˆ™ Two" :=
  ⟨by decide, by decide⟩

/-- C1 (amended): `cumulative_episode_number` is strictly increasing in
extraction order; however it equals the count of records successfully
extracted so far plus one only while no season has ended early on an
unrated block, because the counter is also incremented for the block whose
missing rating stops a season; for a two-season series whose pages contain
exactly 8 and 10 rated blocks the numbers run 1..18 with no gap at the
season boundary. -/
theorem cumulative_strictly_increasing_and_contiguous :
    (∀ (root : RootPage) (env : SeasonEnv) (out : ParseOutput),
      parse_data root env = .ok out →
      List.Pairwise (· < ·) (out.episodes.map (·.cumulative_episode_number))) ∧
    (okOf (parse_data root0 senv18)).map
      (fun o => o.episodes.map (·.cumulative_episode_number)) =
      some (List.range' 1 18) :=
  ⟨parse_data_pairwise, by decide⟩

/-- C1 witness: strict monotonicity on a concrete successful run. -/
theorem cumulative_strictly_increasing_witness :
    List.Pairwise (· < ·) (outOne.episodes.map (·.cumulative_episode_number)) :=
  cumulative_strictly_increasing_and_contiguous.1 root0 senvOne outOne (by decide)

/-- C1 counterexample: with season 1 containing a rated block followed by
an unrated one and season 2 one rated block, the two appended records get
cumulative numbers 1 and 3: the second appended record does not equal the
count of records extracted so far plus one (which would give 1, 2). -/
theorem cumulative_gap_on_unrated_block :
    (okOf (parse_data root0 senvGap)).map
      (fun o => o.episodes.map (·.cumulative_episode_number)) = some [1, 3] ∧
    ([1, 3] : List ℕ) ≠ List.range' 1 2 :=
  ⟨by decide, by decide⟩

/-- C2 (amended): for a season markup of `N` blocks whose (N-1)-th block
(1-based) lacks the rating element while all earlier blocks are
well-formed, extraction yields exactly `N - 2` records — not `N - 1` — and
stops before processing the N-th block: the result does not depend on the
final block at all. -/
theorem missing_rating_stops_season :
    ∀ (s : ℤ) (front : List EpBlock) (bad lastB : EpBlock) (cum : ℕ),
      (∀ b ∈ front, ∃ d, analyzeBlock b = .ok (some d)) →
      analyzeBlock bad = .ok none →
      ∃ recs : List Record,
        recs.length + 2 = (front ++ bad :: [lastB]).length ∧
        extractEpisodes s (front ++ bad :: [lastB]) cum =
          .ok (recs, cum + front.length + 1) ∧
        ∀ other : EpBlock,
          extractEpisodes s (front ++ bad :: [other]) cum =
            extractEpisodes s (front ++ bad :: [lastB]) cum := by
  intro s front bad lastB cum hfront hbad
  obtain ⟨recs, hlen, hrecs⟩ := extractEpisodes_break s front bad hbad hfront cum
  refine ⟨recs, ?_, hrecs [lastB], fun other => (hrecs [other]).trans (hrecs [lastB]).symm⟩
  simp [hlen]

/-- C2 witness: a three-block season whose second block is unrated yields
the same result whatever the third block holds. -/
theorem missing_rating_stops_season_witness :
    extractEpisodes 1 ([okBlock] ++ unratedBlock :: [unratedBlock]) 0 =
      extractEpisodes 1 ([okBlock] ++ unratedBlock :: [okBlock]) 0 := by
  obtain ⟨recs, hlen, heq, hind⟩ :=
    missing_rating_stops_season 1 [okBlock] unratedBlock okBlock 0
      (fun b hb => ⟨okData, by rw [List.mem_singleton.mp hb]; decide⟩) (by decide)
  exact hind unratedBlock

/-- C2 counterexample: three blocks with the second (the (N-1)-th) unrated
and the first well-formed give exactly 1 record, not N - 1 = 2. -/
theorem missing_rating_record_count :
    (okOf (extractEpisodes 1 [okBlock, unratedBlock, okBlock] 0)).map
      (fun p => p.1.length) = some 1 ∧
    (1 : ℕ) ≠ 3 - 1 :=
  ⟨by decide, by decide⟩

/-- C4 (amended): season discovery takes the integer value of the LAST tab
label — not the maximum of the integer-valued labels, whose collection is
computed and immediately discarded — and iterates the contiguous range
1..last; over tabs `[1, 2, "Extra", 4]` the last label is 4, so discovery
yields 1..4 while the discarded integer-label list is `[1, 2, 4]`. -/
theorem season_discovery_uses_last_tab :
    (∀ (tabs : List String) (t : String) (n : ℤ),
      tabs.getLast? = some t → pyIntOfChars (pyStripChars t.toList) = some n →
      discoverSeasons tabs = .ok (pyRange1 n)) ∧
    discoverSeasons ["1", "2", "Extra", "4"] = .ok [1, 2, 3, 4] ∧
    integerTabs ["1", "2", "Extra", "4"] = [1, 2, 4] := by
  refine ⟨?_, by decide, by decide⟩
  intro tabs t n h1 h2
  unfold discoverSeasons
  rw [h1]
  dsimp only
  rw [h2]

/-- C4 witness: discovery over a single integer tab. -/
theorem season_discovery_witness :
    discoverSeasons ["3"] = .ok (pyRange1 3) :=
  season_discovery_uses_last_tab.1 ["3"] "3" 3 (by decide) (by decide)

/-- C4 counterexample: over tabs `["2", "1"]` the highest integer label is
2, but discovery uses the last label 1: the iterated set is `[1]`, not the
range 1..2. -/
theorem season_discovery_not_max :
    discoverSeasons ["2", "1"] = .ok [1] ∧
    integerTabs ["2", "1"] = [2, 1] ∧
    ([1] : List ℤ) ≠ pyRange1 2 :=
  ⟨by decide, by decide, by decide⟩

/-- C3 (amended): a root-page fetch returning a 4xx/5xx status aborts the
whole operation before any parsing, surfacing the classified HTTP status
error; but a season-page fetch error is NOT a silent per-season skip: the
inner `scrape_data` returns Python `None`, `BeautifulSoup(None, ...)`
raises `TypeError`, and the whole operation aborts, so the remaining
seasons are not populated either. -/
theorem root_error_aborts_and_season_error_raises :
    (∀ (input : String) (env : Env) (st : ℕ) (body : RootPage),
      is_valid_imdb_url input = .ok true →
      env.rootFetch = .response st body → 400 ≤ st → st < 600 →
      runScrape input env = .ok (.fetchFailed (some (.httpError st)))) ∧
    (∀ (root : RootPage) (env : SeasonEnv) (rt vt : String) (sr sv : PyNum)
      (idx : IndexPage) (t : String) (n : ℤ) (sn : String),
      root.ratingText = some rt → dotNum (pyStripChars rt.toList) = some sr →
      root.votesText = some vt →
      text_to_num (String.mk (pyStripChars vt.toList)) = some sv →
      (scrape_data env.indexFetch).1 = some idx →
      idx.tabTexts.getLast? = some t →
      pyIntOfChars (pyStripChars t.toList) = some n → 1 ≤ n →
      idx.showName = some sn →
      (scrape_data (env.seasonFetch 1)).1 = none →
      parse_data root env = .error .typeError) := by
  constructor
  · intro input env st body hvalid hfetch h4 h6
    unfold runScrape
    rw [hvalid]
    dsimp only
    rw [hfetch]
    dsimp only [scrape_data]
    rw [if_pos ⟨h4, h6⟩]
  · intro root env rt vt sr sv idx t n sn hrt hsr hvt hsv hidx htab hint hn hsn hs1
    have hrange : pyRange1 n = 1 :: (List.range' 2 (n.toNat - 1)).map (fun k => (k : ℤ)) := by
      unfold pyRange1
      obtain ⟨k, hk⟩ : ∃ k, n.toNat = k + 1 := ⟨n.toNat - 1, by omega⟩
      rw [hk, List.range'_succ]
      simp
    unfold parse_data
    rw [hrt]
    dsimp only
    rw [hsr]
    dsimp only
    rw [hvt]
    dsimp only
    rw [hsv]
    dsimp only
    rw [hidx]
    dsimp only
    unfold discoverSeasons
    rw [htab]
    dsimp only
    rw [hint]
    dsimp only
    rw [hsn]
    dsimp only
    rw [hrange]
    unfold seasonLoop
    rw [hs1]

/-- C3 witness: the root-404 abort and the season-1-fetch-error abort, at
concrete environments (season 2 of the latter is fully well-formed). -/
theorem fetch_error_witness :
    runScrape "https://www.imdb.com/title/tt1/" ⟨.response 404 root0, senvOne⟩ =
      .ok (.fetchFailed (some (.httpError 404))) ∧
    parse_data root0 senv404 = .error .typeError := by
  constructor
  · exact root_error_aborts_and_season_error_raises.1
      "https://www.imdb.com/title/tt1/" ⟨.response 404 root0, senvOne⟩ 404 root0
      (by decide) rfl (by decide) (by decide)
  · exact root_error_aborts_and_season_error_raises.2
      root0 senv404 "8" "1.2K" (.int 8) (.int 1200) index0 "2" 2 "Show"
      rfl (by decide) rfl (by decide) (by decide) (by decide) (by decide)
      (by decide) rfl (by decide)

/-- C3 counterexample: a season-1 fetch returning HTTP 404 while season 2
is fully well-formed makes the whole operation raise `TypeError`; it does
not complete with season 2 populated. -/
theorem season_404_aborts_operation :
    runScrape "https://www.imdb.com/title/tt1/" ⟨.response 200 root0, senv404⟩ =
      .error .typeError := by
  decide
